import Mathlib

/-!
Shallow embedding of `src/main.py` (the `ulog` note/tag/batch module).

Python's dynamic semantics are made explicit: values that may be of any
runtime type are a `PyVal`; operations that can raise return
`Except PyErr _`.  Attribute access on objects is modelled by explicit
`getattr` functions whose domain is exactly the set of attributes the
corresponding `__init__` assigns (plus methods defined on the class), so
a read of a never-assigned attribute produces `PyErr.attributeError`
just as CPython would.  Bare-name lookups fall back to the module's
global namespace, modelled by `moduleGlobals`.
-/

/-- A Python runtime value, at the precision this module needs. -/
inductive PyVal where
  | str (s : String)
  | pyBool (b : Bool)
  | int (n : Int)
  | pyNone
  | listV (l : List PyVal)
  | dictV (d : List (String × PyVal))
  | pyObj (tag : String)
  | noteObj (header body namespace_ : String)
  | taggedObj (header body namespace_ : String) (header_tags body_tags : List String)

/-- A raised Python exception, by kind. -/
inductive PyErr where
  | assertionError (msg : String)
  | attributeError (name : String)
  | nameError (name : String)
  | typeError (msg : String)
  | raised (cls : String) (msg : String)
deriving DecidableEq, Repr

/-- Python truthiness (`bool(v)`). -/
def pyTruthy : PyVal → Bool
  | .str s => s != ""
  | .pyBool b => b
  | .int n => n != 0
  | .pyNone => false
  | .listV l => !l.isEmpty
  | .dictV d => !d.isEmpty
  | .pyObj _ => true
  | .noteObj _ _ _ => true
  | .taggedObj _ _ _ _ _ => true

/-- `isinstance(v, str)`. -/
def isStr : PyVal → Bool
  | .str _ => true
  | _ => false

/-- `isinstance(v, list) and all(isinstance(t, str) for t in v)`. -/
def isStrList : PyVal → Bool
  | .listV l => l.all isStr
  | _ => false

/-- Did the call return normally? -/
def exOk {α : Type} : Except PyErr α → Bool
  | .ok _ => true
  | .error _ => false

/-- Did the call raise an `AssertionError`? -/
def isAssertErr {α : Type} : Except PyErr α → Bool
  | .error (.assertionError _) => true
  | _ => false

/-- `x or default` (Python's short-circuiting `or`). -/
def pyOr (v d : PyVal) : PyVal := if pyTruthy v then v else d

/-- `d.get(k)`: the value, or `None` when the key is absent. -/
def dictGet (d : List (String × PyVal)) (k : String) : PyVal :=
  match d.lookup k with
  | some v => v
  | none => PyVal.pyNone

/-- The names bound at module level in `src/main.py` (imports, the three
exception classes actually defined, and the classes).  Note that
`NoteBlockException` and `annotate` are **not** among them. -/
def moduleGlobals : List String :=
  ["print_function", "re", "csv", "sys", "boto3",
   "NoteException", "NoteParserException", "NoteWriterException",
   "Note", "NoteParser", "TaggedNote", "NoteWriter",
   "NoteBlock", "NoteCompiler", "Backend"]

/-- Resolution of a bare global name: `NameError` when undefined. -/
def lookupGlobal (n : String) : Except PyErr PyVal :=
  if moduleGlobals.contains n then .ok (.pyObj n) else .error (.nameError n)

/-- The state of a constructed `Note` object: `__init__` assigns exactly
`header`, `body`, `namespace`. -/
structure NoteObj where
  header : String
  body : String
  namespace_ : String
deriving DecidableEq, Repr

namespace Note

/-- `Note.__init__(self, header, body, namespace=None)`, lines 29–35:
three `assert isinstance(_, str)` checks, then
`self.namespace = "" if not namespace else namespace`.
A call that omits `namespace` passes the default `PyVal.pyNone`. -/
def init (header body namespace_ : PyVal) : Except PyErr NoteObj :=
  match header with
  | .str h =>
    match body with
    | .str b =>
      match namespace_ with
      | .str ns => .ok ⟨h, b, if ns = "" then "" else ns⟩
      | _ => .error (.assertionError "Namespace is not a string.")
    | _ => .error (.assertionError "Body is not a string.")
  | _ => .error (.assertionError "Header is not a string.")

/-- `Note.__repr__`, line 39: returns the list
`[self.header, self.body, self.namespace]` (when actually called). -/
def repr (n : NoteObj) : List String := [n.header, n.body, n.namespace_]

end Note

/-- The state of a constructed `TaggedNote`: the `Note` fields plus the
two tag lists. -/
structure TaggedNoteObj where
  header : String
  body : String
  namespace_ : String
  header_tags : List String
  body_tags : List String
deriving DecidableEq, Repr

/-- Extract the strings of an all-string Python list. -/
def strListOf (l : List PyVal) : List String :=
  l.filterMap fun v => match v with | .str s => some s | _ => none

/-- The tag-list half of `TaggedNote.__init__`, lines 73–78: the two
`isinstance(_, list)` asserts, the two all-strings asserts, then
`self.header_tags = header_tags or []` (idempotent on a list). -/
def tagsCheck (base : NoteObj) (header_tags body_tags : PyVal) :
    Except PyErr TaggedNoteObj :=
  match header_tags with
  | .listV hl =>
    match body_tags with
    | .listV bl =>
      if hl.all isStr then
        if bl.all isStr then
          .ok ⟨base.header, base.body, base.namespace_, strListOf hl, strListOf bl⟩
        else .error (.assertionError "Body tags is not a list of strings")
      else .error (.assertionError "Header tags is not a list of strings")
    | _ => .error (.assertionError "Body tags is not a list.")
  | _ => .error (.assertionError "Header tags is not a list.")

namespace TaggedNote

/-- `TaggedNote.__init__`, lines 71–78: `super().__init__(header, body,
namespace)` then the tag-list checks. -/
def init (header body namespace_ header_tags body_tags : PyVal) :
    Except PyErr TaggedNoteObj :=
  (Note.init header body namespace_).bind fun base =>
    tagsCheck base header_tags body_tags

end TaggedNote

lemma note_init_ok_iff (h b ns : PyVal) :
    exOk (Note.init h b ns) = (isStr h && isStr b && isStr ns) := by
  cases h <;> cases b <;> cases ns <;> rfl

lemma note_init_assert (h b ns : PyVal) :
    exOk (Note.init h b ns) = true ∨ isAssertErr (Note.init h b ns) = true := by
  cases h <;> cases b <;> cases ns <;> simp [Note.init, exOk, isAssertErr]

lemma tagsCheck_ok_iff (base : NoteObj) (ht bt : PyVal) :
    exOk (tagsCheck base ht bt) = (isStrList ht && isStrList bt) := by
  cases ht <;> cases bt <;>
    first
    | rfl
    | (simp [tagsCheck, exOk, isStrList]; done)
    | (rename_i hl bl
       simp only [tagsCheck, isStrList]
       cases hhl : hl.all isStr <;> cases hbl : bl.all isStr <;> simp [exOk])

lemma tagsCheck_assert (base : NoteObj) (ht bt : PyVal) :
    exOk (tagsCheck base ht bt) = true ∨ isAssertErr (tagsCheck base ht bt) = true := by
  cases ht <;> cases bt <;>
    first
    | (simp [tagsCheck, exOk, isAssertErr]; done)
    | (rename_i hl bl
       simp only [tagsCheck, isStrList]
       cases hhl : hl.all isStr <;> cases hbl : bl.all isStr <;>
         simp [exOk, isAssertErr])

lemma tagged_init_ok_iff (h b ns ht bt : PyVal) :
    exOk (TaggedNote.init h b ns ht bt) =
      (isStr h && isStr b && isStr ns && isStrList ht && isStrList bt) := by
  unfold TaggedNote.init
  cases hN : Note.init h b ns with
  | error e =>
    have hok := note_init_ok_iff h b ns
    rw [hN] at hok
    simp only [exOk] at hok
    simp [Except.bind, exOk, ← hok]
  | ok base =>
    have hok := note_init_ok_iff h b ns
    rw [hN] at hok
    simp only [exOk] at hok
    simp [Except.bind, tagsCheck_ok_iff, ← hok]

lemma tagged_init_assert (h b ns ht bt : PyVal) :
    exOk (TaggedNote.init h b ns ht bt) = true ∨
      isAssertErr (TaggedNote.init h b ns ht bt) = true := by
  unfold TaggedNote.init
  cases hN : Note.init h b ns with
  | error e =>
    have ha := note_init_assert h b ns
    rw [hN] at ha
    rcases ha with ha | ha
    · simp [exOk] at ha
    · cases e <;> simp_all [Except.bind, isAssertErr]
  | ok base =>
    simpa [Except.bind] using tagsCheck_assert base ht bt

/-- The attributes a `NoteParser` instance has at each point of
`__init__` (lines 49–53); a field is `none` until the corresponding
`self._x = ...` assignment has run.  `__init__` assigns
`_default_pattern` and `_default_tag_char`, then reads
`self._default_pattern` and `self._tag_char` on line 53. -/
structure NoteParserAttrs where
  _default_pattern : Option PyVal := none
  _default_tag_char : Option PyVal := none
  _regex : Option PyVal := none

/-- Attribute access on a `NoteParser` instance. -/
def NoteParserAttrs.getattr (a : NoteParserAttrs) (n : String) : Except PyErr PyVal :=
  if n = "_default_pattern" then
    match a._default_pattern with
    | some v => .ok v
    | none => .error (.attributeError n)
  else if n = "_default_tag_char" then
    match a._default_tag_char with
    | some v => .ok v
    | none => .error (.attributeError n)
  else if n = "_regex" then
    match a._regex with
    | some v => .ok v
    | none => .error (.attributeError n)
  else .error (.attributeError n)

/-- `self._default_pattern % self._tag_char` (line 53): Python `%`
formatting of the one `%s` slot, `TypeError` on non-string operands. -/
def percentFormat (pat tc : PyVal) : Except PyErr PyVal :=
  match pat, tc with
  | .str p, .str t => .ok (.str (String.intercalate t (p.splitOn "%s")))
  | _, _ => .error (.typeError "unsupported operand type for %")

namespace NoteParser

/-- `NoteParser.__init__(self, config)`, lines 49–53.  The `assert
isinstance(config, dict)` is reflected in the parameter type.  Line 51
assigns `self._default_pattern`, line 52 assigns `self._default_tag_char`
(note the name), and line 53 reads `self._tag_char` — an attribute that
was never assigned. -/
def init (config : List (String × PyVal)) : Except PyErr NoteParserAttrs := do
  let a1 : NoteParserAttrs :=
    { _default_pattern :=
        some (pyOr (dictGet config "default_pattern")
          (.str "(?:^|/s)(?:%s)([a-zA-Z/d]+)")) }
  let a2 : NoteParserAttrs :=
    { a1 with _default_tag_char := some (pyOr (dictGet config "tag_char") (.str "#")) }
  let pat ← a2.getattr "_default_pattern"
  let tc ← a2.getattr "_tag_char"
  let compiled ← percentFormat pat tc
  .ok { a2 with _regex := some compiled }

/-- A Python `re.match` result lifted to a value: a truthy match object,
or `None`.  The engine itself is a parameter (`reMatch`), since lines
55–56 only forward to `self._regex.match`. -/
def matchPy : Option String → PyVal
  | some m => .pyObj ("match " ++ m)
  | none => PyVal.pyNone

/-- `NoteParser.parse_tags(self, note)`, lines 55–56: returns the tuple
`(self._regex.match(note.header), self._regex.match(note.body))` —
a pair of single anchored-match results, never a list of all matches. -/
def parse_tags (reMatch : String → String → Option String)
    (a : NoteParserAttrs) (note : NoteObj) : Except PyErr (PyVal × PyVal) := do
  let rx ← a.getattr "_regex"
  match rx with
  | .str p => .ok (matchPy (reMatch p note.header), matchPy (reMatch p note.body))
  | _ => .error (.typeError "not a compiled pattern")

/-- `any(v)`: iterates `v`; `TypeError` when `v` is not iterable. -/
def pyAny : PyVal → Except PyErr Bool
  | .listV l => .ok (l.any pyTruthy)
  | .dictV d => .ok (!d.isEmpty)
  | .str s => .ok (!s.isEmpty)
  | _ => .error (.typeError "argument of type method is not iterable")

/-- `NoteParser.note_is_tagged(self, note)`, lines 58–59: the body is
`return any(self.parse_tags)` — `any` applied to the *bound method
object itself*, which is not called and not iterable; `note` is never
used. -/
def note_is_tagged (a : NoteParserAttrs) (note : NoteObj) : Except PyErr Bool :=
  pyAny (.pyObj "bound method NoteParser.parse_tags")

end NoteParser

/-- `TaggedNote.parse_tagged_note(cls, note, parser)`, lines 84–87:
unpacks the pair returned by `parser.parse_tags` and forwards the two
match results to `cls(...)` as the tag-list arguments. -/
def parse_tagged_note (reMatch : String → String → Option String)
    (a : NoteParserAttrs) (note : NoteObj) : Except PyErr TaggedNoteObj := do
  let tags ← NoteParser.parse_tags reMatch a note
  TaggedNote.init (.str note.header) (.str note.body) (.str note.namespace_)
    tags.1 tags.2

/-- The attribute a `NoteWriter` holds after `__init__` (lines 97–99). -/
structure NoteWriterAttrs where
  _annotate : PyVal

/-- `NoteWriter.__init__(self, config)`, lines 97–99:
`self._annotate = config.get("annotate") or False`. -/
def NoteWriter.init (config : List (String × PyVal)) : NoteWriterAttrs :=
  ⟨pyOr (dictGet config "annotate") (.pyBool false)⟩

/-- Attribute access on a `Note`/`TaggedNote` argument as `to_csv` needs
it: the fields `__init__` assigned, the `__repr__` method, the
`all_tags` property; anything else (in particular `as_dict`, line 111)
is an `AttributeError`. -/
def getattrPy (v : PyVal) (n : String) : Except PyErr PyVal :=
  match v with
  | .noteObj h b ns =>
    if n = "header" then .ok (.str h)
    else if n = "body" then .ok (.str b)
    else if n = "namespace" then .ok (.str ns)
    else if n = "__repr__" then .ok (.pyObj "bound method Note.__repr__")
    else .error (.attributeError n)
  | .taggedObj h b ns ht bt =>
    if n = "header" then .ok (.str h)
    else if n = "body" then .ok (.str b)
    else if n = "namespace" then .ok (.str ns)
    else if n = "header_tags" then .ok (.listV (ht.map PyVal.str))
    else if n = "body_tags" then .ok (.listV (bt.map PyVal.str))
    else if n = "all_tags" then .ok (.listV ((ht ++ bt).map PyVal.str))
    else if n = "__repr__" then .ok (.pyObj "bound method Note.__repr__")
    else .error (.attributeError n)
  | _ => .error (.attributeError n)

/-- `str.capitalize()`. -/
def capitalizeStr (s : String) : String :=
  match s.data with
  | [] => ""
  | c :: cs => String.mk (c.toUpper :: cs.map Char.toLower)

/-- `str(v)` as far as the dead branch of `to_csv` would need it. -/
def pyStrOf : PyVal → String
  | .str s => s
  | .pyBool b => if b then "True" else "False"
  | .int n => toString n
  | .pyNone => "None"
  | _ => "<object>"

/-- `NoteWriter.to_csv(self, note)`, lines 108–111.  Line 109 tests the
bare name `annotate` — there is no local or module-level binding of that
name (the instance attribute is `self._annotate`), so the lookup is a
`NameError`.  Were it resolvable: line 110 returns `note.__repr__`, the
bound method object itself (uncalled), and line 111 reads the
nonexistent attribute `note.as_dict`. -/
def NoteWriter.to_csv (w : NoteWriterAttrs) (note : PyVal) : Except PyErr PyVal := do
  let a ← lookupGlobal "annotate"
  if !pyTruthy a then
    getattrPy note "__repr__"
  else do
    let d ← getattrPy note "as_dict"
    match d with
    | .dictV items =>
      .ok (.listV (items.map fun kv => .str (capitalizeStr kv.1 ++ pyStrOf kv.2)))
    | _ => .error (.typeError "items")

/-- The attributes `NoteBlock.__init__` (lines 115–117) assigns:
exactly `_MAX_NOTE_BLOCK_SIZE` and `_note_block`.  No attribute named
`note_block_size` (read on line 120) or `current_size_bytes` is ever
assigned. -/
structure NoteBlockObj where
  _MAX_NOTE_BLOCK_SIZE : Int
  _note_block : List PyVal

namespace NoteBlock

/-- `NoteBlock.__init__`, lines 115–117: capacity `1024*30`, empty list. -/
def init : NoteBlockObj := ⟨1024 * 30, []⟩

/-- Attribute access on a `NoteBlock` instance. -/
def getattr (self : NoteBlockObj) (n : String) : Except PyErr PyVal :=
  if n = "_MAX_NOTE_BLOCK_SIZE" then .ok (.int self._MAX_NOTE_BLOCK_SIZE)
  else if n = "_note_block" then .ok (.listV self._note_block)
  else .error (.attributeError n)

/-- An operand that must be an `int`. -/
def asIntE : PyVal → Except PyErr Int
  | .int n => .ok n
  | _ => .error (.typeError "unsupported operand type for +")

/-- `lst += v` (`list.__iadd__`): extends `lst` with the elements of the
iterable `v`; `TypeError` when `v` is not iterable.  Appending `v` as a
single element would instead be `lst.append(v)`. -/
def listIAdd (l : List PyVal) (v : PyVal) : Except PyErr (List PyVal) :=
  match v with
  | .listV l2 => .ok (l ++ l2)
  | .str s => .ok (l ++ s.data.map fun c => PyVal.str (String.mk [c]))
  | .dictV d => .ok (l ++ d.map fun kv => PyVal.str kv.1)
  | _ => .error (.typeError "object is not iterable")

/-- `NoteBlock._add_note_to_block(self, note)`, lines 119–123:
line 120 reads `self.note_block_size` (never assigned) and compares
`self.note_block_size + sys.getsizeof(note)` (the interpreter-defined
memory footprint, here an uninterpreted parameter `getsizeof`) against
`self._MAX_NOTE_BLOCK_SIZE`; line 121 runs `self._note_block += note`;
line 123 raises `NoteBlockException`, a name with no module-level
definition. -/
def _add_note_to_block (getsizeof : PyVal → Int) (self : NoteBlockObj)
    (note : PyVal) : Except PyErr NoteBlockObj := do
  let szv ← getattr self "note_block_size"
  let sz ← asIntE szv
  if sz + getsizeof note ≤ self._MAX_NOTE_BLOCK_SIZE then
    let nb ← listIAdd self._note_block note
    .ok { self with _note_block := nb }
  else do
    let _ ← lookupGlobal "NoteBlockException"
    .error (.raised "NoteBlockException" "Cannot add note to block.")

end NoteBlock

/-!
The spec's Compiler (`ingest`) has no implementation in `src/main.py`:
`NoteCompiler` (lines 135–139) defines only `__init__`, which
instantiates the three collaborators.  The definitions below model the
missing orchestration from the spec so its claims can be settled.
-/

/-- Modelled from the spec: the error taxonomy of §7 for the Batch and
Compiler operations absent from `src/main.py`. -/
inductive SpecErr where
  | batchCapacityExceeded
  | noteTooLarge
deriving DecidableEq, Repr

/-- Modelled from the spec (§3, §4.3): the Batch state `src/main.py`
lacks — `members` in insertion order plus the running total
`current_size_bytes`; `capacity_bytes` is held by the owning compiler. -/
structure SpecBatch where
  members : List TaggedNoteObj
  current_size_bytes : Nat
deriving DecidableEq, Repr

/-- Modelled from the spec (§4.3): an empty batch. -/
def SpecBatch.empty : SpecBatch := ⟨[], 0⟩

/-- Modelled from the spec (§4.3): `add(note)` — append and update the
running total when `current_size_bytes + size(note) <= capacity_bytes`,
otherwise fail with `BatchCapacityExceeded` leaving the batch unchanged.
`size` is the spec's deterministic size function, a parameter here. -/
def SpecBatch.add (capacity_bytes : Nat) (size : TaggedNoteObj → Nat)
    (b : SpecBatch) (n : TaggedNoteObj) : Except SpecErr SpecBatch :=
  if b.current_size_bytes + size n ≤ capacity_bytes then
    .ok ⟨b.members ++ [n], b.current_size_bytes + size n⟩
  else .error .batchCapacityExceeded

/-- Modelled from the spec (§4.5): the Compiler's state — its byte
budget, the active batch, and the batches already handed to the sink
collaborator, in flush order. -/
structure SpecCompiler where
  capacity_bytes : Nat
  batch : SpecBatch
  sink : List (List TaggedNoteObj)
deriving DecidableEq, Repr

/-- Modelled from the spec (§4.5): `ingest(note)` — derive a TaggedNote
(via the §4.2 derivation, a parameter `derive` since the source's
extractor is absent/broken), attempt `batch.add`; on
`BatchCapacityExceeded` flush the current batch to the sink, start a new
empty batch, and retry the add exactly once; if the retry also fails,
report `NoteTooLarge` for that note while the fresh batch remains usable
for the rest of the stream (§7). -/
def SpecCompiler.ingest (derive : NoteObj → TaggedNoteObj)
    (size : TaggedNoteObj → Nat) (c : SpecCompiler) (note : NoteObj) :
    SpecCompiler × Option SpecErr :=
  let t := derive note
  match c.batch.add c.capacity_bytes size t with
  | .ok b => ({ c with batch := b }, none)
  | .error _ =>
    let flushed := { capacity_bytes := c.capacity_bytes, batch := SpecBatch.empty,
                     sink := c.sink ++ [c.batch.members] : SpecCompiler }
    match SpecBatch.empty.add c.capacity_bytes size t with
    | .ok b => ({ flushed with batch := b }, none)
    | .error _ => (flushed, some SpecErr.noteTooLarge)

/-- C1: the claim says `current_size_bytes` equals the sum of note sizes
after successful adds and never exceeds `capacity_bytes`.  In
`src/main.py` no such running total exists: `NoteBlock.__init__` never
assigns `note_block_size` (nor any `current_size_bytes`), so the very
first statement of `_add_note_to_block` raises `AttributeError` and no
`add` ever succeeds on any block. -/
theorem C1_no_running_total_exists :
    (∀ (getsizeof : PyVal → Int) (self : NoteBlockObj) (note : PyVal),
      NoteBlock._add_note_to_block getsizeof self note =
        .error (.attributeError "note_block_size")) ∧
    (∀ self : NoteBlockObj,
      NoteBlock.getattr self "current_size_bytes" =
        .error (.attributeError "current_size_bytes")) :=
  ⟨fun _ _ _ => rfl, fun _ => rfl⟩

/-- C2: the claim says an overflowing `add` fails with
`BatchCapacityExceeded` and leaves the batch unchanged.  In the code the
add never reaches the capacity branch (it raises `AttributeError` on
line 120 first), and the exception it would raise there,
`NoteBlockException`, is not defined anywhere in the module — raising it
would itself be a `NameError`. -/
theorem C2_capacity_exception_unreachable_and_undefined :
    (∀ (getsizeof : PyVal → Int) (self : NoteBlockObj) (note : PyVal),
      exOk (NoteBlock._add_note_to_block getsizeof self note) = false) ∧
    lookupGlobal "NoteBlockException" = .error (.nameError "NoteBlockException") :=
  ⟨fun _ _ _ => rfl, rfl⟩

/-- C8: the claim says a successful add appends the note as one new last
element of the members sequence.  In the code line 121 is
`self._note_block += note`, which extends the list with the elements of
an *iterable* — on a `Note` object it is a `TypeError`, never a
one-element append — and the method aborts before it anyway with the
line-120 `AttributeError`, so no add ever succeeds. -/
theorem C8_add_never_appends :
    (∀ (l : List PyVal) (h b ns : String),
      NoteBlock.listIAdd l (.noteObj h b ns) =
        .error (.typeError "object is not iterable")) ∧
    (∀ (getsizeof : PyVal → Int) (self : NoteBlockObj) (h b ns : String),
      NoteBlock._add_note_to_block getsizeof self (.noteObj h b ns) =
        .error (.attributeError "note_block_size")) :=
  ⟨fun _ _ _ _ => rfl, fun _ _ _ _ _ => rfl⟩

/-- C3: the claim gives the scenario tags for header
`"Meeting #work #urgent"` / body `"notes #todo"`.  In the code no
extraction can ever run: `NoteParser.__init__` assigns
`_default_tag_char` (line 52) but line 53 reads `self._tag_char`, so
every construction of a parser raises `AttributeError` and no compiled
pattern exists. -/
theorem C3_parser_never_constructs :
    ∀ config : List (String × PyVal),
      NoteParser.init config = .error (.attributeError "_tag_char") :=
  fun _ => rfl

/-- C5: the claim says extraction on tag-free text returns an empty
sequence and never fails.  In the code the parser constructor always
fails, and `parse_tags` (lines 55–56) returns the pair of `re.match`
results — Python `None` on each tag-free side, which is not an empty
sequence. -/
theorem C5_absence_gives_none_not_empty_sequence :
    (∀ config : List (String × PyVal), exOk (NoteParser.init config) = false) ∧
    (∀ (pat : String) (note : NoteObj),
      NoteParser.parse_tags (fun _ _ => none) { _regex := some (.str pat) } note =
        .ok (PyVal.pyNone, PyVal.pyNone)) ∧
    PyVal.pyNone ≠ PyVal.listV [] :=
  ⟨fun _ => rfl, fun _ _ => rfl, fun hc => PyVal.noConfusion hc⟩

/-- C7: the claim says `note_is_tagged` is true iff header or body
extraction yields a tag.  The body (line 59) is
`any(self.parse_tags)`: `any` applied to the bound method object itself
(never called, `note` never consulted), so the call raises `TypeError`
and never returns a boolean. -/
theorem C7_note_is_tagged_raises_type_error :
    ∀ (a : NoteParserAttrs) (note : NoteObj),
      NoteParser.note_is_tagged a note =
        .error (.typeError "argument of type method is not iterable") :=
  fun _ _ => rfl

/-- C6: the claim says an exported record has exactly 3 fields without
annotation and 5 with it.  `NoteWriter.to_csv` (line 109) tests the bare
name `annotate`, which is bound neither locally nor at module level (the
attribute is `self._annotate`), so every export raises `NameError` —
even though `Note.__repr__` would indeed produce the 3-field base
record. -/
theorem C6_to_csv_raises_name_error :
    (∀ (w : NoteWriterAttrs) (note : PyVal),
      NoteWriter.to_csv w note = .error (.nameError "annotate")) ∧
    (∀ n : NoteObj, (Note.repr n).length = 3) :=
  ⟨fun _ _ => rfl, fun _ => rfl⟩

/-- C9: the claim says a `Note` built without a namespace argument gets
the empty-string namespace.  The default is `namespace=None` and line 32
asserts `isinstance(namespace, str)` before the `"" if not namespace`
normalization can run, so the two-argument construction always raises
`AssertionError`. -/
theorem C9_default_namespace_raises_assertion :
    ∀ h b : String,
      Note.init (.str h) (.str b) PyVal.pyNone =
        .error (.assertionError "Namespace is not a string.") :=
  fun _ _ => rfl

/-- C10: a `Note`/`TaggedNote` construction returns normally exactly
when header, body and namespace are strings and (for `TaggedNote`) both
tag arguments are lists of strings; every abnormal return is an
`AssertionError`.  Hence every successfully constructed object has
string fields and all-string tag lists. -/
theorem C10_constructor_type_checks :
    (∀ h b ns : PyVal,
      exOk (Note.init h b ns) = (isStr h && isStr b && isStr ns)) ∧
    (∀ h b ns ht bt : PyVal,
      exOk (TaggedNote.init h b ns ht bt) =
        (isStr h && isStr b && isStr ns && isStrList ht && isStrList bt)) ∧
    (∀ h b ns : PyVal,
      exOk (Note.init h b ns) = true ∨ isAssertErr (Note.init h b ns) = true) ∧
    (∀ h b ns ht bt : PyVal,
      exOk (TaggedNote.init h b ns ht bt) = true ∨
        isAssertErr (TaggedNote.init h b ns ht bt) = true) :=
  ⟨note_init_ok_iff, tagged_init_ok_iff, note_init_assert, tagged_init_assert⟩

/-- C4: for a note whose derived size exceeds the capacity, `ingest`
flushes the current batch to the sink, retries once on a fresh empty
batch, reports `NoteTooLarge`, and a subsequent note that fits then
ingests successfully into the fresh batch — the oversized note does not
abort the stream. -/
theorem C4_ingest_note_too_large (derive : NoteObj → TaggedNoteObj)
    (size : TaggedNoteObj → Nat) (c : SpecCompiler) (n1 n2 : NoteObj)
    (h1 : c.capacity_bytes < size (derive n1))
    (h2 : size (derive n2) ≤ c.capacity_bytes) :
    (SpecCompiler.ingest derive size c n1).2 = some SpecErr.noteTooLarge ∧
    (SpecCompiler.ingest derive size c n1).1.sink = c.sink ++ [c.batch.members] ∧
    (SpecCompiler.ingest derive size c n1).1.batch = SpecBatch.empty ∧
    (SpecCompiler.ingest derive size
        (SpecCompiler.ingest derive size c n1).1 n2).2 = none ∧
    (SpecCompiler.ingest derive size
        (SpecCompiler.ingest derive size c n1).1 n2).1.batch.members =
      [derive n2] := by
  have e0 : SpecBatch.empty.current_size_bytes = 0 := rfl
  have e1 : SpecBatch.empty.members = [] := rfl
  have ha : c.batch.add c.capacity_bytes size (derive n1) =
      .error .batchCapacityExceeded := by
    simp only [SpecBatch.add,
      if_neg (by omega :
        ¬ c.batch.current_size_bytes + size (derive n1) ≤ c.capacity_bytes)]
  have hb : SpecBatch.empty.add c.capacity_bytes size (derive n1) =
      .error .batchCapacityExceeded := by
    simp only [SpecBatch.add, e0,
      if_neg (by omega : ¬ (0 : Nat) + size (derive n1) ≤ c.capacity_bytes)]
  have hc2 : SpecBatch.empty.add c.capacity_bytes size (derive n2) =
      .ok ⟨[derive n2], 0 + size (derive n2)⟩ := by
    simp only [SpecBatch.add, e0, e1,
      if_pos (by omega : (0 : Nat) + size (derive n2) ≤ c.capacity_bytes),
      List.nil_append]
  refine ⟨?_, ?_, ?_, ?_, ?_⟩ <;>
    simp [SpecCompiler.ingest, ha, hb, hc2]

def wDerive : NoteObj → TaggedNoteObj :=
  fun n => ⟨n.header, n.body, n.namespace_, [], []⟩

def wSize : TaggedNoteObj → Nat :=
  fun t => t.header.length + t.body.length

def wCompiler : SpecCompiler := ⟨10, SpecBatch.empty, []⟩

def wBig : NoteObj := ⟨"a very long header line", "and a body", ""⟩

def wSmall : NoteObj := ⟨"ok", "fine", ""⟩

/-- Witness for C4 at concrete inputs: a 33-byte note against a 10-byte
budget yields `NoteTooLarge`, after which a 6-byte note ingests fine. -/
theorem C4_ingest_note_too_large_witness :
    (SpecCompiler.ingest wDerive wSize wCompiler wBig).2 =
        some SpecErr.noteTooLarge ∧
    (SpecCompiler.ingest wDerive wSize
        (SpecCompiler.ingest wDerive wSize wCompiler wBig).1 wSmall).2 = none :=
  ⟨(C4_ingest_note_too_large wDerive wSize wCompiler wBig wSmall
      (by decide) (by decide)).1,
   (C4_ingest_note_too_large wDerive wSize wCompiler wBig wSmall
      (by decide) (by decide)).2.2.2.1⟩
